import Mathlib

/-!
Verification of the line classifier of the evernote_backup_gui repository,
rate-limit handling and backup-job control flow.

Two controller variants exist in the repository and are both modelled here:
* `src/evernote_backup_gui.py` ("Main" definitions): `backup_task`,
  `start_backup`, `is_ignorable_error`.
* `src/사용하지 않는 파일/evernote_backup_gui 2.0.py` ("20" definitions):
  `_backup_task`, `_handle_rate_limit`, `_auto_wait_and_retry`,
  `_is_ignorable_error`, `_extract_note_info`.

Lines of process output are modelled as `List Char`; the Python regex searches
(`re.search`) over the concrete patterns used by the code are modelled by
executable leftmost-match scanners.  The Python classes `\d` and `\s` are
modelled as ASCII digits and ASCII whitespace (the tool output the program
parses is ASCII).
-/

/-- String literal as a character list (all classifier code works on text). -/
def chars (s : String) : List Char := s.data

/-- Test whether the first list starts the second (Python `str.startswith` on a slice). -/
def startsWithL : List Char → List Char → Bool
  | [], _ => true
  | _ :: _, [] => false
  | a :: as, b :: bs => if a = b then startsWithL as bs else false

/-- Model of the Python substring test `needle in hay`. -/
def containsStr (needle : List Char) : List Char → Bool
  | [] => needle.isEmpty
  | c :: cs => startsWithL needle (c :: cs) || containsStr needle cs

/-- Strip an exact literal from the front, returning the rest (regex literal atom). -/
def dropLit : List Char → List Char → Option (List Char)
  | [], cs => some cs
  | _ :: _, [] => none
  | a :: as, b :: bs => if a = b then dropLit as bs else none

/-- Python `str.lower()` (ASCII case folding, as performed by the sources). -/
def toLowerL (cs : List Char) : List Char := cs.map Char.toLower

/-- Python regex `\s` (ASCII whitespace subset actually produced by the tool). -/
def isPySpace (c : Char) : Bool :=
  c = ' ' || c = '\t' || c = '\n' || c = '\r' || c = '\x0b' || c = '\x0c'

/-- Greedy span of a character class (regex `X+`/`X*` over a one-char class). -/
def spanPred (p : Char → Bool) : List Char → List Char × List Char
  | [] => ([], [])
  | c :: cs =>
    if p c then
      let r := spanPred p cs
      (c :: r.1, r.2)
    else
      ([], c :: cs)

/-- The decimal digit character for `d % 10`-style values. -/
def digitChar : Nat → Char
  | 0 => '0' | 1 => '1' | 2 => '2' | 3 => '3' | 4 => '4'
  | 5 => '5' | 6 => '6' | 7 => '7' | 8 => '8' | _ => '9'

/-- Fuel-driven decimal printer (structural, so that it evaluates by `decide`). -/
def decReprAux : Nat → Nat → List Char
  | 0, _ => []
  | fuel + 1, n =>
    if n < 10 then [digitChar n]
    else decReprAux fuel (n / 10) ++ [digitChar (n % 10)]

/-- Decimal representation of a natural number, as Python prints integers. -/
def decRepr (n : Nat) : List Char := decReprAux (n + 1) n

/-- Decimal representation of an integer, as Python interpolates an int into text. -/
def intRepr (i : Int) : List Char :=
  if i < 0 then '-' :: decRepr i.natAbs else decRepr i.toNat

/-- Python `int()` applied to a string of decimal digits. -/
def digitsVal (ds : List Char) : Nat :=
  ds.foldl (fun acc c => acc * 10 + (c.toNat - 48)) 0

/-- Leftmost-match scan: try the position matcher at each start index in turn,
exactly as `re.search` reports the match with the smallest start index. -/
def searchWith {α : Type} (m : List Char → Option α) : List Char → Option α
  | [] => m []
  | c :: cs =>
    match m (c :: cs) with
    | some v => some v
    | none => searchWith m cs

/-- Position matcher for regexes of shape `(\d+)<lit...>`: a nonempty maximal
digit run followed by the literal.  (Backtracking into a shorter digit run can
never succeed when the literal starts with a non-digit, so the maximal run is
the only candidate.) -/
def matchNumLitAt (lit : List Char) (cs : List Char) : Option Nat :=
  match spanPred Char.isDigit cs with
  | ([], _) => none
  | (ds, rest) => if startsWithL lit rest then some (digitsVal ds) else none

/-- Model of the search for the regex `(\d+) notes to download` in `backup_task`
(src/evernote_backup_gui.py). -/
def searchNotesMain : List Char → Option Nat :=
  searchWith (matchNumLitAt (chars " notes to download"))

/-- Position matcher for `(\d+)\s+note\(s\)\s+to\s+download`. -/
def matchNotes20At (cs : List Char) : Option Nat :=
  match spanPred Char.isDigit cs with
  | ([], _) => none
  | (ds, r0) =>
    match spanPred isPySpace r0 with
    | ([], _) => none
    | (_, r1) =>
      match dropLit (chars "note(s)") r1 with
      | none => none
      | some r2 =>
        match spanPred isPySpace r2 with
        | ([], _) => none
        | (_, r3) =>
          match dropLit (chars "to") r3 with
          | none => none
          | some r4 =>
            match spanPred isPySpace r4 with
            | ([], _) => none
            | (_, r5) =>
              match dropLit (chars "download") r5 with
              | none => none
              | some _ => some (digitsVal ds)

/-- Model of the search for the regex `(\d+)\s+note\(s\)\s+to\s+download` in
`_backup_task` (evernote_backup_gui 2.0.py). -/
def searchNotes20 : List Char → Option Nat :=
  searchWith matchNotes20At

/-- Position matcher for `Restart program in (\d+):(\d+)`. -/
def matchRestartAt (cs : List Char) : Option (Nat × Nat) :=
  match dropLit (chars "Restart program in ") cs with
  | none => none
  | some r0 =>
    match spanPred Char.isDigit r0 with
    | ([], _) => none
    | (d1, r1) =>
      match r1 with
      | ':' :: r2 =>
        match spanPred Char.isDigit r2 with
        | ([], _) => none
        | (d2, _) => some (digitsVal d1, digitsVal d2)
      | _ => none

/-- Model of the search for the regex `Restart program in (\d+):(\d+)` in
`_backup_task` (evernote_backup_gui 2.0.py). -/
def searchRestart : List Char → Option (Nat × Nat) :=
  searchWith matchRestartAt

/-- The wait duration a rate-limit line yields in `_backup_task`:
`wait_time = minutes * 60 + seconds` when the `MM:SS` token parses. -/
def extractWait (line : List Char) : Option Nat :=
  (searchRestart line).map (fun p => p.1 * 60 + p.2)

/-- The fixed pattern table of `is_ignorable_error` (src/evernote_backup_gui.py).
The `.` characters are literal text there (the list is used with `in`, not as
regexes). -/
def ignorablePatternsMain : List (List Char) :=
  [chars "Failed to download note",
   chars "Note.will be skipped",
   chars "LinkedNotebook.is not accessible",
   chars "RemoteServer returned system error",
   chars "PERMISSION_DENIED",
   chars "NOT_FOUND",
   chars "Authentication failed",
   chars "Shared notebook.not found",
   chars "Business notebook.expired"]

/-- Model of `is_ignorable_error` (src/evernote_backup_gui.py): case-insensitive
substring match against the fixed pattern table. -/
def isIgnorableMain (line : List Char) : Bool :=
  let ll := toLowerL line
  ignorablePatternsMain.any (fun p => containsStr (toLowerL p) ll)

/-- The fixed pattern table of `_is_ignorable_error` (evernote_backup_gui 2.0.py).
The `.*` sequences are literal text there (the list is used with `in`). -/
def ignorablePatterns20 : List (List Char) :=
  [chars "Failed to download note",
   chars "Note.*will be skipped",
   chars "LinkedNotebook.*is not accessible",
   chars "RemoteServer returned system error",
   chars "PERMISSION_DENIED",
   chars "NOT_FOUND",
   chars "Authentication failed",
   chars "Shared notebook.*not found",
   chars "Business notebook.*expired"]

/-- Model of `_is_ignorable_error` (evernote_backup_gui 2.0.py): rate-limit lines are
excluded, then case-insensitive substring match against the pattern table. -/
def isIgnorable20 (line : List Char) : Bool :=
  let ll := toLowerL line
  if containsStr (chars "rate limit") ll then false
  else ignorablePatterns20.any (fun p => containsStr (toLowerL p) ll)

/-- The double-quote character (written via its code point to keep the
character literal simple). -/
def quoteChar : Char := Char.ofNat 34

/-- Case-insensitive literal strip (regex IGNORECASE literal atom). -/
def dropLitCI : List Char → List Char → Option (List Char)
  | [], cs => some cs
  | _ :: _, [] => none
  | a :: as, b :: bs => if a.toLower = b.toLower then dropLitCI as bs else none

/-- Position matcher for the first pattern of `_extract_note_info`
(evernote_backup_gui 2.0.py): the literal, one or more colon/whitespace
characters, an optional double quote, then a nonempty greedy run of non-quote
characters as the captured group (IGNORECASE). -/
def matchNoteQuoteAt (lit : List Char) (cs : List Char) : Option (List Char) :=
  match dropLitCI lit cs with
  | none => none
  | some r0 =>
    match spanPred (fun c => c = ':' || isPySpace c) r0 with
    | ([], _) => none
    | (_, r1) =>
      let r2 := match r1 with
        | c :: t => if c = quoteChar then t else c :: t
        | t => t
      match spanPred (fun c => !(c = quoteChar)) r2 with
      | ([], _) => none
      | (g, _) => some g

/-- Position matcher for `Note\s+([^\s]+)` (IGNORECASE), second pattern of
`_extract_note_info`. -/
def matchNoteWordAt (cs : List Char) : Option (List Char) :=
  match dropLitCI (chars "Note") cs with
  | none => none
  | some r0 =>
    match spanPred isPySpace r0 with
    | ([], _) => none
    | (_, r1) =>
      match spanPred (fun c => !(isPySpace c)) r1 with
      | ([], _) => none
      | (g, _) => some g

/-- Model of `_extract_note_info` (evernote_backup_gui 2.0.py): the first of the three
regexes that matches yields its group, else `"Unknown"`. -/
def extractNoteInfo20 (line : List Char) : List Char :=
  match searchWith (matchNoteQuoteAt (chars "note")) line with
  | some g => g
  | none =>
    match searchWith matchNoteWordAt line with
    | some g => g
    | none =>
      match searchWith (matchNoteQuoteAt (chars "title")) line with
      | some g => g
      | none => chars "Unknown"

/-- The phase label the job records in `self.sync_phase`. -/
inductive Phase
  | preparing   -- "준비 중"
  | syncing     -- "동기화"
  | exporting   -- "내보내기"
  | restarting  -- "재시작"
  | done        -- "완료"
deriving DecidableEq

/-- The per-job mutable counters and flags of `_backup_task` / `backup_task`:
`total_notes`, `current_note`, `sync_phase`, `failed_notes`,
`rate_limit_detected`, `wait_time`. -/
structure JobState where
  totalNotes : Nat
  currentNote : Nat
  syncPhase : Phase
  failedNotes : List (List Char)
  rateLimitDetected : Bool
  waitTime : Option Nat
deriving DecidableEq

/-- The state both variants start the sync phase from. -/
def initJobState : JobState :=
  { totalNotes := 0, currentNote := 0, syncPhase := Phase.syncing,
    failedNotes := [], rateLimitDetected := false, waitTime := none }

/-- One iteration of the sync-loop line handling of `_backup_task`
(evernote_backup_gui 2.0.py, lines 637-674): a single if/elif chain with the
rate-limit check first. -/
def processSyncLine20 (st : JobState) (line : List Char) : JobState :=
  if containsStr (chars "Rate limit reached") line then
    { st with rateLimitDetected := true,
              waitTime := match extractWait line with
                | some w => some w
                | none => st.waitTime }
  else if containsStr (chars "note(s) to download") line then
    match searchNotes20 line with
    | some n => { st with totalNotes := n }
    | none => st
  else if containsStr (chars "Downloading") line && containsStr (chars "note(s)") line then
    st
  else if isIgnorable20 line then
    { st with failedNotes := st.failedNotes ++ [extractNoteInfo20 line] }
  else
    let ll := toLowerL line
    if containsStr (chars "notebook") ll && !(containsStr (chars "error") ll) then
      st
    else if (containsStr (chars "note") ll || containsStr (chars "downloading") ll)
            && !(containsStr (chars "error") ll) then
      if st.totalNotes > 0 then
        { st with currentNote := min (st.currentNote + 1) st.totalNotes }
      else st
    else st

/-- One iteration of the sync-loop line handling of `backup_task`
(src/evernote_backup_gui.py, lines 691-713).  Unlike the 2.0 variant this is
three independent `if` statements: total-count extraction, the
progress/ignorable chain, and the rate-limit check. -/
def processSyncLineMain (st : JobState) (line : List Char) : JobState :=
  let st1 :=
    if containsStr (chars "notes to download") line then
      match searchNotesMain line with
      | some n => { st with totalNotes := n }
      | none => st
    else st
  let st2 :=
    if containsStr (chars "Downloading") line && containsStr (chars "notes") line then
      st1
    else if isIgnorableMain line then
      -- `extract_note_info` in this file returns the line itself
      { st1 with failedNotes := st1.failedNotes ++ [line] }
    else st1
  if containsStr (chars "rate limit") (toLowerL line)
     || containsStr (chars "throttle") (toLowerL line) then
    { st2 with rateLimitDetected := true }
  else st2

/-- One iteration of the export-loop line handling (identical counter logic in
both variants: src/evernote_backup_gui.py lines 741-746 and
evernote_backup_gui 2.0.py lines 720-725). -/
def processExportLine (st : JobState) (line : List Char) : JobState :=
  let ll := toLowerL line
  if containsStr (chars "export") ll || containsStr (chars "file") ll then
    if st.totalNotes > 0 then
      { st with currentNote := min (st.currentNote + 1) st.totalNotes }
    else st
  else st

/-- The three-way answer of `messagebox.askyesnocancel` in `_handle_rate_limit`:
`yes` = wait automatically and retry, `no` = stop now, `cancel` = defer to a
manual retry later. -/
inductive Choice
  | yes
  | no
  | cancel
deriving DecidableEq

/-- How `_handle_rate_limit` (evernote_backup_gui 2.0.py, lines 753-785) ends:
either one of the three offered courses of action, or — when no usable wait
duration exists — a warning dialog followed by `_backup_ui_finish` with no
choice offered and no retry (`reportStop`). -/
inductive RLOutcome
  | autoWait (w : Nat)
  | abortNow
  | deferManual
  | reportStop
deriving DecidableEq

/-- Python truthiness of the `wait_seconds` argument: `if wait_seconds:` is
false both for `None` and for `0`. -/
def pyTruthy : Option Nat → Bool
  | none => false
  | some n => !(n = 0)

/-- Model of `_handle_rate_limit` (evernote_backup_gui 2.0.py): with a
truthy wait duration the user is offered wait/abort/defer; otherwise the
condition is reported and the job stops. -/
def handleRateLimit (ws : Option Nat) (c : Choice) : RLOutcome :=
  if pyTruthy ws then
    match c with
    | Choice.yes => RLOutcome.autoWait (ws.getD 0)
    | Choice.no => RLOutcome.abortNow
    | Choice.cancel => RLOutcome.deferManual
  else RLOutcome.reportStop

/-- One published countdown update of `_auto_wait_and_retry`: the remaining
time (`wait_seconds // 60`, `wait_seconds % 60`) and the elapsed time
(`elapsed // 60`, `elapsed % 60`). -/
structure CountdownTick where
  remMin : Nat
  remSec : Nat
  elMin : Nat
  elSec : Nat
deriving DecidableEq

/-- The updates published by the `countdown_update` recursion of
`_auto_wait_and_retry` while the counter runs from `w` down to 1; the `0` case
publishes nothing and restarts instead. -/
def countdownTicks (orig : Nat) : Nat → List CountdownTick
  | 0 => []
  | w + 1 =>
    { remMin := (w + 1) / 60, remSec := (w + 1) % 60,
      elMin := (orig - (w + 1)) / 60, elSec := (orig - (w + 1)) % 60 }
      :: countdownTicks orig w

/-- Model of `_auto_wait_and_retry` (evernote_backup_gui 2.0.py, lines
787-834): the published countdown ticks, the job state prepared for the
restart (`total_notes = 0`, `current_note = 0`, `sync_phase = "재시작"`), and
the fact that `_backup_task` is spawned again. -/
def autoWaitAndRetry (w : Nat) (st : JobState) : List CountdownTick × JobState × Bool :=
  (countdownTicks w w,
   { st with totalNotes := 0, currentNote := 0, syncPhase := Phase.restarting },
   true)

/-- Severity levels of `set_status(msg, level)`. -/
inductive Level
  | info
  | success
  | warning
  | error
deriving DecidableEq

/-- Terminal outcome of one `_backup_task` / `backup_task` run. -/
inductive Outcome
  | succeeded
  | failed (msg : List Char)
  | rateLimited (r : RLOutcome)
deriving DecidableEq

/-- Result of a `_backup_task` run (evernote_backup_gui 2.0.py), including the
`set_status` notifications published along the taken path. -/
structure JobResult20 where
  finalState : JobState
  exportInvoked : Bool
  outcome : Outcome
  statuses : List (List Char × Level)
deriving DecidableEq

/-- Result of a `backup_task` run (src/evernote_backup_gui.py). -/
structure JobResultMain where
  finalState : JobState
  exportInvoked : Bool
  outcome : Outcome
deriving DecidableEq

/-- Model of `_backup_task` (evernote_backup_gui 2.0.py, lines 596-737) over the
sync stream (lines then exit code), the rate-limit choice, and the export
stream: after the sync loop the rate-limit flag is checked first, then the
sync exit code; only then is the export phase entered. -/
def backupTask20 (syncLines : List (List Char)) (syncExit : Int) (choice : Choice)
    (exportLines : List (List Char)) (exportExit : Int) : JobResult20 :=
  let st1 := syncLines.foldl processSyncLine20 initJobState
  if st1.rateLimitDetected then
    { finalState := st1, exportInvoked := false,
      outcome := Outcome.rateLimited (handleRateLimit st1.waitTime choice),
      statuses := [(chars "노트 동기화 중...", Level.warning),
                   (chars "에버노트 API 속도 제한 도달", Level.warning)] }
  else if syncExit ≠ 0 then
    { finalState := st1, exportInvoked := false,
      outcome := Outcome.failed (chars "동기화에 실패했습니다"),
      statuses := [(chars "노트 동기화 중...", Level.warning),
                   (chars "백업 실패", Level.error)] }
  else
    let st2 := { st1 with syncPhase := Phase.exporting, currentNote := 0 }
    let st3 := exportLines.foldl processExportLine st2
    if exportExit ≠ 0 then
      { finalState := st3, exportInvoked := true,
        outcome := Outcome.failed (chars "내보내기에 실패했습니다"),
        statuses := [(chars "노트 동기화 중...", Level.warning),
                     (chars "ENEX 파일 생성 중...", Level.warning),
                     (chars "백업 실패", Level.error)] }
    else
      { finalState := { st3 with syncPhase := Phase.done }, exportInvoked := true,
        outcome := Outcome.succeeded,
        statuses := [(chars "노트 동기화 중...", Level.warning),
                     (chars "ENEX 파일 생성 중...", Level.warning),
                     (chars "백업 완료", Level.success)] }

/-- The export-failure message of `backup_task` (src/evernote_backup_gui.py,
line 749), which interpolates the export exit code into the text. -/
def mainExportFailMsg (rc : Int) : List Char :=
  chars "내보내기 실패 (종료 코드: " ++ intRepr rc ++ chars ")"

/-- Model of `backup_task` (src/evernote_backup_gui.py, lines 656-759) over the sync
and export streams.  The sync exit code is never inspected (the parameter is
received but unused, as in the source) and the in-loop rate-limit handling
never stops the run, so the export phase is always entered; only the export
exit code can fail the job. -/
def backupTaskMain (syncLines : List (List Char)) (_syncExit : Int)
    (exportLines : List (List Char)) (exportExit : Int) : JobResultMain :=
  let st1 := syncLines.foldl processSyncLineMain initJobState
  let st2 := { st1 with syncPhase := Phase.exporting, currentNote := 0 }
  let st3 := exportLines.foldl processExportLine st2
  if exportExit ≠ 0 then
    { finalState := st3, exportInvoked := true,
      outcome := Outcome.failed (mainExportFailMsg exportExit) }
  else
    { finalState := st3, exportInvoked := true, outcome := Outcome.succeeded }

/-- The GUI-side fields `start_backup` reads or resets. -/
structure GuiState where
  totalNotes : Nat
  currentNote : Nat
  phaseLabel : Phase
  isWorking : Bool
deriving DecidableEq

/-- Model of `start_backup` (src/evernote_backup_gui.py, lines 626-654): the guard
chain exe-found → logged-in → not-already-working → user-confirm → mkdir,
then counter reset and worker-thread spawn.  The returned flag says whether a
worker was started. -/
def startBackupMain (hasExe loggedIn confirm mkdirOk : Bool) (st : GuiState) :
    GuiState × Bool :=
  if !hasExe then (st, false)
  else if !loggedIn then (st, false)
  else if st.isWorking then (st, false)
  else if !confirm then (st, false)
  else if !mkdirOk then (st, false)
  else ({ st with totalNotes := 0, currentNote := 0, phaseLabel := Phase.preparing }, true)

/-- Model of `start_backup` (evernote_backup_gui 2.0.py, lines 571-594): logged-in →
not-already-working → user-confirm → mkdir, then counter reset and
worker-thread spawn. -/
def startBackup20 (loggedIn confirm mkdirOk : Bool) (st : GuiState) :
    GuiState × Bool :=
  if !loggedIn then (st, false)
  else if st.isWorking then (st, false)
  else if !confirm then (st, false)
  else if !mkdirOk then (st, false)
  else ({ st with totalNotes := 0, currentNote := 0, phaseLabel := Phase.preparing }, true)

/-- The head of `r` (if any) fails the class `p`: the shape under which a
greedy span cannot continue into `r`. -/
def headFails (p : Char → Bool) : List Char → Bool
  | [] => true
  | c :: _ => !(p c)

theorem startsWithL_append (l r : List Char) : startsWithL l (l ++ r) = true := by
  induction l with
  | nil => rfl
  | cons a as ih => simp [startsWithL, ih]

theorem containsStr_nil_needle (l : List Char) : containsStr [] l = true := by
  cases l with
  | nil => rfl
  | cons c cs => simp [containsStr, startsWithL]

theorem containsStr_append_left (n a b : List Char) (h : containsStr n a = true) :
    containsStr n (a ++ b) = true := by
  induction a with
  | nil =>
    cases n with
    | nil => simpa using containsStr_nil_needle b
    | cons x xs => simp [containsStr, List.isEmpty] at h
  | cons c cs ih =>
    simp only [containsStr, Bool.or_eq_true] at h
    rcases h with h | h
    · simp only [List.cons_append, containsStr, Bool.or_eq_true]
      left
      -- a prefix of `c :: cs` is also a prefix of `c :: (cs ++ b)`
      clear ih
      induction n generalizing c cs with
      | nil => rfl
      | cons x xs ihn =>
        simp only [startsWithL] at h ⊢
        by_cases hx : x = c
        · simp only [hx, if_pos rfl] at h ⊢
          cases cs with
          | nil =>
            cases xs with
            | nil => simp [startsWithL]
            | cons y ys => simp [startsWithL] at h
          | cons d ds => exact ihn d ds h
        · simp [hx] at h
    · simp only [List.cons_append, containsStr, Bool.or_eq_true]
      right
      exact ih h

theorem containsStr_append_right (n a b : List Char) (h : containsStr n b = true) :
    containsStr n (a ++ b) = true := by
  induction a with
  | nil => simpa using h
  | cons c cs ih =>
    simp only [List.cons_append, containsStr, Bool.or_eq_true]
    right
    exact ih

theorem startsWithL_cons_mem (c : Char) (n l : List Char)
    (h : startsWithL (c :: n) l = true) : c ∈ l := by
  cases l with
  | nil => simp [startsWithL] at h
  | cons d ds =>
    simp only [startsWithL] at h
    by_cases hc : c = d
    · subst hc; exact List.mem_cons_self c ds
    · simp [hc] at h

theorem containsStr_cons_mem (c : Char) (n l : List Char)
    (h : containsStr (c :: n) l = true) : c ∈ l := by
  induction l with
  | nil => simp [containsStr, List.isEmpty] at h
  | cons d ds ih =>
    simp only [containsStr, Bool.or_eq_true] at h
    rcases h with h | h
    · exact startsWithL_cons_mem _ _ _ h
    · exact List.mem_cons_of_mem d (ih h)

theorem dropLit_append (l r : List Char) : dropLit l (l ++ r) = some r := by
  induction l with
  | nil => rfl
  | cons a as ih => simp [dropLit, ih]

theorem spanPred_append (p : Char → Bool) (l r : List Char)
    (hl : ∀ c ∈ l, p c = true) (hr : headFails p r = true) :
    spanPred p (l ++ r) = (l, r) := by
  induction l with
  | nil =>
    cases r with
    | nil => rfl
    | cons c cs =>
      simp only [headFails, Bool.not_eq_true'] at hr
      simp [spanPred, hr]
  | cons a as ih =>
    have ha : p a = true := hl a (List.mem_cons_self a as)
    have has : ∀ c ∈ as, p c = true := fun c hc => hl c (List.mem_cons_of_mem a hc)
    simp [spanPred, ha, ih has]

theorem digitChar_isDigit (d : Nat) : (digitChar d).isDigit = true := by
  match d with
  | 0 | 1 | 2 | 3 | 4 | 5 | 6 | 7 | 8 => decide
  | n + 9 => exact rfl

theorem digitChar_toNat (d : Nat) (h : d < 10) : (digitChar d).toNat - 48 = d := by
  interval_cases d <;> decide

theorem digitChar_ne_colon (d : Nat) : ¬(digitChar d = ':') := by
  match d with
  | 0 | 1 | 2 | 3 | 4 | 5 | 6 | 7 | 8 => decide
  | n + 9 => exact show ¬(('9' : Char) = ':') by decide

theorem decReprAux_digits (fuel n : Nat) (h : n < fuel) :
    ∀ c ∈ decReprAux fuel n, Char.isDigit c = true := by
  induction fuel generalizing n with
  | zero => omega
  | succ fuel ih =>
    intro c hc
    by_cases h10 : n < 10
    · simp only [decReprAux, if_pos h10, List.mem_singleton] at hc
      subst hc
      exact digitChar_isDigit n
    · simp only [decReprAux, if_neg h10, List.mem_append, List.mem_singleton] at hc
      rcases hc with hc | hc
      · have hlt : n / 10 < fuel := by
          have := Nat.div_lt_self (by omega : 0 < n) (by omega : 1 < 10)
          omega
        exact ih (n / 10) hlt c hc
      · subst hc
        exact digitChar_isDigit (n % 10)

theorem decReprAux_ne_nil (fuel n : Nat) (h : n < fuel) :
    decReprAux fuel n ≠ [] := by
  cases fuel with
  | zero => omega
  | succ fuel =>
    by_cases h10 : n < 10
    · simp [decReprAux, if_pos h10]
    · simp [decReprAux, if_neg h10]

theorem decReprAux_val (fuel n : Nat) (h : n < fuel) :
    digitsVal (decReprAux fuel n) = n := by
  induction fuel generalizing n with
  | zero => omega
  | succ fuel ih =>
    by_cases h10 : n < 10
    · simp only [decReprAux, if_pos h10, digitsVal, List.foldl_cons, List.foldl_nil]
      simpa using digitChar_toNat n h10
    · have hlt : n / 10 < fuel := by
        have := Nat.div_lt_self (by omega : 0 < n) (by omega : 1 < 10)
        omega
      simp only [decReprAux, if_neg h10, digitsVal, List.foldl_append,
        List.foldl_cons, List.foldl_nil]
      have hv := ih (n / 10) hlt
      simp only [digitsVal] at hv
      rw [hv, digitChar_toNat (n % 10) (by omega)]
      omega

theorem decRepr_digits (n : Nat) : ∀ c ∈ decRepr n, Char.isDigit c = true :=
  decReprAux_digits (n + 1) n (Nat.lt_succ_self n)

theorem decRepr_ne_nil (n : Nat) : decRepr n ≠ [] :=
  decReprAux_ne_nil (n + 1) n (Nat.lt_succ_self n)

theorem decRepr_val (n : Nat) : digitsVal (decRepr n) = n :=
  decReprAux_val (n + 1) n (Nat.lt_succ_self n)

theorem searchWith_skip {α : Type} (m : List Char → Option α) (c : Char)
    (cs : List Char) (h : m (c :: cs) = none) :
    searchWith m (c :: cs) = searchWith m cs := by
  simp [searchWith, h]

theorem searchWith_found {α : Type} (m : List Char → Option α) (c : Char)
    (cs : List Char) (v : α) (h : m (c :: cs) = some v) :
    searchWith m (c :: cs) = some v := by
  simp [searchWith, h]

theorem countdownTicks_length (orig w : Nat) : (countdownTicks orig w).length = w := by
  induction w with
  | zero => rfl
  | succ w ih => simp [countdownTicks, ih]

theorem matchNumLitAt_pos (lit ds suf : List Char) (hds : ds ≠ [])
    (hdig : ∀ c ∈ ds, Char.isDigit c = true)
    (hhead : headFails Char.isDigit suf = true)
    (hpre : startsWithL lit suf = true) :
    matchNumLitAt lit (ds ++ suf) = some (digitsVal ds) := by
  obtain ⟨c, t, rfl⟩ := List.exists_cons_of_ne_nil hds
  have hspan := spanPred_append Char.isDigit (c :: t) suf hdig hhead
  simp only [matchNumLitAt, hspan, hpre, if_true]

theorem searchNumLit_leading (lit ds suf : List Char) (hds : ds ≠ [])
    (hdig : ∀ c ∈ ds, Char.isDigit c = true)
    (hhead : headFails Char.isDigit suf = true)
    (hpre : startsWithL lit suf = true) :
    searchWith (matchNumLitAt lit) (ds ++ suf) = some (digitsVal ds) := by
  obtain ⟨c, t, rfl⟩ := List.exists_cons_of_ne_nil hds
  rw [List.cons_append]
  exact searchWith_found _ _ _ _
    (by rw [← List.cons_append]; exact matchNumLitAt_pos lit (c :: t) suf hds hdig hhead hpre)

theorem matchNotes20At_pos (ds : List Char) (hds : ds ≠ [])
    (hdig : ∀ c ∈ ds, Char.isDigit c = true) :
    matchNotes20At (ds ++ chars " note(s) to download") = some (digitsVal ds) := by
  obtain ⟨c, t, rfl⟩ := List.exists_cons_of_ne_nil hds
  have hspan := spanPred_append Char.isDigit (c :: t) (chars " note(s) to download")
    hdig (by decide)
  have e1 : spanPred isPySpace (chars " note(s) to download")
      = ([' '], chars "note(s) to download") := by decide
  have e2 : dropLit (chars "note(s)") (chars "note(s) to download")
      = some (chars " to download") := by decide
  have e3 : spanPred isPySpace (chars " to download") = ([' '], chars "to download") := by
    decide
  have e4 : dropLit (chars "to") (chars "to download") = some (chars " download") := by
    decide
  have e5 : spanPred isPySpace (chars " download") = ([' '], chars "download") := by decide
  have e6 : dropLit (chars "download") (chars "download") = some [] := by decide
  simp only [matchNotes20At, hspan, e1, e2, e3, e4, e5, e6]

theorem searchNotes20_leading (ds : List Char) (hds : ds ≠ [])
    (hdig : ∀ c ∈ ds, Char.isDigit c = true) :
    searchNotes20 (ds ++ chars " note(s) to download") = some (digitsVal ds) := by
  obtain ⟨c, t, rfl⟩ := List.exists_cons_of_ne_nil hds
  rw [searchNotes20, List.cons_append]
  exact searchWith_found _ _ _ _
    (by rw [← List.cons_append]; exact matchNotes20At_pos (c :: t) hds hdig)

/-- The rate-limit announcement of the external tool, with an `MM:SS`
remaining-time token written in decimal (the wording `_backup_task` detects
and parses, e.g. `"Rate limit reached. Restart program in 2:05"`). -/
def rateLimitLine (mm ss : Nat) : List Char :=
  chars "Rate limit reached. Restart program in " ++ (decRepr mm ++ (':' :: decRepr ss))

theorem matchRestartAt_pos (d1 d2 : List Char) (h1 : d1 ≠ [])
    (hd1 : ∀ c ∈ d1, Char.isDigit c = true) (h2 : d2 ≠ [])
    (hd2 : ∀ c ∈ d2, Char.isDigit c = true) :
    matchRestartAt (chars "Restart program in " ++ (d1 ++ (':' :: d2)))
      = some (digitsVal d1, digitsVal d2) := by
  obtain ⟨c, t, rfl⟩ := List.exists_cons_of_ne_nil h1
  obtain ⟨c2, t2, rfl⟩ := List.exists_cons_of_ne_nil h2
  have hdrop := dropLit_append (chars "Restart program in ") ((c :: t) ++ (':' :: c2 :: t2))
  have hspan1 := spanPred_append Char.isDigit (c :: t) (':' :: c2 :: t2) hd1
    (by rw [show headFails Char.isDigit (':' :: c2 :: t2) = !(Char.isDigit ':') from rfl]
        decide)
  have hspan2 : spanPred Char.isDigit (c2 :: t2) = (c2 :: t2, []) := by
    have := spanPred_append Char.isDigit (c2 :: t2) [] hd2 (by decide)
    simpa using this
  simp only [matchRestartAt, hdrop, hspan1, hspan2]

theorem matchRestartAt_not_R (c : Char) (cs : List Char) (h : ¬(c = 'R')) :
    matchRestartAt (c :: cs) = none := by
  have hd : dropLit (chars "Restart program in ") (c :: cs) = none := by
    have hlit : chars "Restart program in " = 'R' :: chars "estart program in " := rfl
    rw [hlit]
    simp only [dropLit]
    rw [if_neg (fun hh => h hh.symm)]
  simp only [matchRestartAt, hd]

theorem matchRestartAt_Ra (cs : List Char) :
    matchRestartAt ('R' :: 'a' :: cs) = none := by
  have hd : dropLit (chars "Restart program in ") ('R' :: 'a' :: cs) = none := by
    have hlit : chars "Restart program in " = 'R' :: 'e' :: chars "start program in " := rfl
    rw [hlit]
    simp [dropLit]
  simp only [matchRestartAt, hd]

theorem searchRestart_skip_ne (c : Char) (cs : List Char) (h : ¬(c = 'R')) :
    searchRestart (c :: cs) = searchRestart cs := by
  rw [searchRestart]
  exact searchWith_skip _ _ _ (matchRestartAt_not_R c cs h)

theorem searchRestart_rateLimitLine (mm ss : Nat) :
    searchRestart (rateLimitLine mm ss) = some (digitsVal (decRepr mm), digitsVal (decRepr ss)) := by
  have hsplit : chars "Rate limit reached. Restart program in "
      = chars "Rate limit reached. " ++ chars "Restart program in " := by decide
  have hpre : chars "Rate limit reached. "
      = ['R', 'a', 't', 'e', ' ', 'l', 'i', 'm', 'i', 't', ' ',
         'r', 'e', 'a', 'c', 'h', 'e', 'd', '.', ' '] := rfl
  rw [rateLimitLine, hsplit, List.append_assoc, hpre]
  simp only [List.cons_append, List.nil_append]
  rw [searchRestart]
  rw [searchWith_skip _ _ _ (matchRestartAt_Ra _)]
  rw [← searchRestart]
  rw [searchRestart_skip_ne 'a' _ (by decide)]
  rw [searchRestart_skip_ne 't' _ (by decide)]
  rw [searchRestart_skip_ne 'e' _ (by decide)]
  rw [searchRestart_skip_ne ' ' _ (by decide)]
  rw [searchRestart_skip_ne 'l' _ (by decide)]
  rw [searchRestart_skip_ne 'i' _ (by decide)]
  rw [searchRestart_skip_ne 'm' _ (by decide)]
  rw [searchRestart_skip_ne 'i' _ (by decide)]
  rw [searchRestart_skip_ne 't' _ (by decide)]
  rw [searchRestart_skip_ne ' ' _ (by decide)]
  rw [searchRestart_skip_ne 'r' _ (by decide)]
  rw [searchRestart_skip_ne 'e' _ (by decide)]
  rw [searchRestart_skip_ne 'a' _ (by decide)]
  rw [searchRestart_skip_ne 'c' _ (by decide)]
  rw [searchRestart_skip_ne 'h' _ (by decide)]
  rw [searchRestart_skip_ne 'e' _ (by decide)]
  rw [searchRestart_skip_ne 'd' _ (by decide)]
  rw [searchRestart_skip_ne '.' _ (by decide)]
  rw [searchRestart_skip_ne ' ' _ (by decide)]
  have hcons : chars "Restart program in " ++ (decRepr mm ++ (':' :: decRepr ss))
      = 'R' :: (chars "estart program in " ++ (decRepr mm ++ (':' :: decRepr ss))) := rfl
  rw [searchRestart, hcons]
  exact searchWith_found _ _ _ _
    (by
      rw [← hcons]
      exact matchRestartAt_pos (decRepr mm) (decRepr ss) (decRepr_ne_nil mm)
        (decRepr_digits mm) (decRepr_ne_nil ss) (decRepr_digits ss))

theorem extractWait_rateLimitLine (mm ss : Nat) :
    extractWait (rateLimitLine mm ss) = some (mm * 60 + ss) := by
  rw [extractWait, searchRestart_rateLimitLine, decRepr_val, decRepr_val]
  rfl

theorem processSyncLine20_marker (st : JobState) (line : List Char)
    (h : containsStr (chars "Rate limit reached") line = true) :
    processSyncLine20 st line =
      { st with rateLimitDetected := true,
                waitTime := match extractWait line with
                  | some w => some w
                  | none => st.waitTime } := by
  unfold processSyncLine20
  rw [if_pos h]

theorem processSyncLine20_rate_preserved (st : JobState) (line : List Char)
    (h : containsStr (chars "Rate limit reached") line = false) :
    (processSyncLine20 st line).rateLimitDetected = st.rateLimitDetected := by
  simp only [processSyncLine20, h]
  repeat' split
  all_goals simp_all

theorem foldSync20_no_rate (lines : List (List Char)) (st : JobState)
    (h : ∀ l ∈ lines, containsStr (chars "Rate limit reached") l = false)
    (h0 : st.rateLimitDetected = false) :
    (lines.foldl processSyncLine20 st).rateLimitDetected = false := by
  induction lines generalizing st with
  | nil => simpa using h0
  | cons l ls ih =>
    simp only [List.foldl_cons]
    refine ih _ (fun x hx => h x (List.mem_cons_of_mem l hx)) ?_
    rw [processSyncLine20_rate_preserved st l (h l (List.mem_cons_self l ls))]
    exact h0

theorem processSyncLine20_total (st : JobState) (line : List Char) (n : Nat)
    (hm : containsStr (chars "Rate limit reached") line = false)
    (hc : containsStr (chars "note(s) to download") line = true)
    (hs : searchNotes20 line = some n) :
    (processSyncLine20 st line).totalNotes = n := by
  simp only [processSyncLine20, hm, hc, hs]
  simp

theorem processSyncLineMain_total (st : JobState) (line : List Char) (n : Nat)
    (hc : containsStr (chars "notes to download") line = true)
    (hs : searchNotesMain line = some n) :
    (processSyncLineMain st line).totalNotes = n := by
  simp only [processSyncLineMain, hc, hs]
  repeat' split
  all_goals simp_all

theorem processSyncLineMain_ignorable (st : JobState) (line : List Char)
    (hi : isIgnorableMain line = true)
    (hd : (containsStr (chars "Downloading") line
           && containsStr (chars "notes") line) = false) :
    (processSyncLineMain st line).failedNotes = st.failedNotes ++ [line]
    ∧ (processSyncLineMain st line).currentNote = st.currentNote
    ∧ (processSyncLineMain st line).syncPhase = st.syncPhase := by
  simp only [processSyncLineMain, hi, hd]
  repeat' split
  all_goals simp_all

theorem processExportLine_total (st : JobState) (line : List Char) :
    (processExportLine st line).totalNotes = st.totalNotes := by
  simp only [processExportLine]
  repeat' split
  all_goals rfl

theorem processExportLine_le (st : JobState) (line : List Char)
    (h : st.currentNote ≤ st.totalNotes) :
    (processExportLine st line).currentNote ≤ (processExportLine st line).totalNotes := by
  simp only [processExportLine]
  repeat' split
  all_goals simp_all

theorem processExportLine_at_bound (st : JobState) (line : List Char)
    (h : st.currentNote = st.totalNotes) :
    processExportLine st line = st := by
  simp only [processExportLine]
  repeat' split
  all_goals try rfl
  rename_i ht
  have : min (st.currentNote + 1) st.totalNotes = st.currentNote := by omega
  rw [this]

theorem foldExport_le (lines : List (List Char)) (st : JobState)
    (h : st.currentNote ≤ st.totalNotes) :
    (lines.foldl processExportLine st).currentNote
      ≤ (lines.foldl processExportLine st).totalNotes := by
  induction lines generalizing st with
  | nil => simpa using h
  | cons l ls ih =>
    simp only [List.foldl_cons]
    exact ih _ (processExportLine_le st l h)

theorem foldExport_total (lines : List (List Char)) (st : JobState) :
    (lines.foldl processExportLine st).totalNotes = st.totalNotes := by
  induction lines generalizing st with
  | nil => rfl
  | cons l ls ih =>
    simp only [List.foldl_cons]
    rw [ih, processExportLine_total]

theorem marker_false_numline20 (n : Nat) :
    containsStr (chars "Rate limit reached")
      (decRepr n ++ chars " note(s) to download") = false := by
  cases h : containsStr (chars "Rate limit reached")
      (decRepr n ++ chars " note(s) to download") with
  | false => rfl
  | true =>
    exfalso
    have h2 : containsStr ('R' :: chars "ate limit reached")
        (decRepr n ++ chars " note(s) to download") = true := by
      rw [show ('R' :: chars "ate limit reached") = chars "Rate limit reached" from rfl]
      exact h
    have hm := containsStr_cons_mem _ _ _ h2
    rcases List.mem_append.mp hm with hm1 | hm2
    · exact absurd (decRepr_digits n 'R' hm1) (by decide)
    · exact absurd hm2 (by decide)

/-- Claim C1: for every sync output line containing the rate-limit marker, a
parseable `MM:SS` remaining-time token yields the wait duration
`MM * 60 + SS` seconds, and when no token is parseable the wait duration
stays absent and `_handle_rate_limit` reports the condition and stops without
offering automatic retry. -/
theorem rateLimit_wait_parse (mm ss : Nat) :
    (containsStr (chars "Rate limit reached") (rateLimitLine mm ss) = true
      ∧ extractWait (rateLimitLine mm ss) = some (mm * 60 + ss))
    ∧ (∀ (line : List Char) (st : JobState) (c : Choice),
        containsStr (chars "Rate limit reached") line = true →
        extractWait line = none →
        st.waitTime = none →
        (processSyncLine20 st line).rateLimitDetected = true
        ∧ (processSyncLine20 st line).waitTime = none
        ∧ handleRateLimit (processSyncLine20 st line).waitTime c
            = RLOutcome.reportStop) := by
  constructor
  · exact ⟨containsStr_append_left _ _ _ (by decide), extractWait_rateLimitLine mm ss⟩
  · intro line st c hm he hw
    rw [processSyncLine20_marker st line hm]
    simp only [he, hw]
    refine ⟨trivial, trivial, ?_⟩
    rfl

/-- Witness for C1 at the concrete token `2:05` (125 seconds) and at a marker
line without a parseable token. -/
theorem rateLimit_wait_parse_witness :
    extractWait (rateLimitLine 2 5) = some (2 * 60 + 5)
    ∧ ((processSyncLine20 initJobState (chars "Rate limit reached, retry later")).waitTime
        = none
       ∧ handleRateLimit
           (processSyncLine20 initJobState (chars "Rate limit reached, retry later")).waitTime
           Choice.yes = RLOutcome.reportStop) :=
  ⟨(rateLimit_wait_parse 2 5).1.2,
   ⟨((rateLimit_wait_parse 2 5).2 (chars "Rate limit reached, retry later") initJobState
       Choice.yes (by decide) (by decide) rfl).2.1,
    ((rateLimit_wait_parse 2 5).2 (chars "Rate limit reached, retry later") initJobState
       Choice.yes (by decide) (by decide) rfl).2.2⟩⟩

/-- Claim C2: when the observer picks automatic wait-then-retry for a known
wait duration `w`, the countdown publishes exactly one tick per remaining
second (`w` ticks in total, so 125 ticks for a parsed `2:05`), and the restart
re-enters the sync phase from scratch with `total_notes` and `current_note`
reset to 0. -/
theorem autoWait_countdown_restart (w : Nat) (st : JobState) (c : Choice)
    (_h : handleRateLimit (some w) c = RLOutcome.autoWait w) :
    (autoWaitAndRetry w st).1.length = w
    ∧ (autoWaitAndRetry w st).2.1.totalNotes = 0
    ∧ (autoWaitAndRetry w st).2.1.currentNote = 0
    ∧ (autoWaitAndRetry w st).2.2 = true :=
  ⟨countdownTicks_length w w, rfl, rfl, rfl⟩

/-- Witness for C2 at the parsed duration `2:05` = 125 seconds. -/
theorem autoWait_countdown_restart_witness :
    extractWait (chars "Rate limit reached. Restart program in 2:05") = some 125
    ∧ ((autoWaitAndRetry 125 initJobState).1.length = 125
       ∧ (autoWaitAndRetry 125 initJobState).2.1.totalNotes = 0
       ∧ (autoWaitAndRetry 125 initJobState).2.1.currentNote = 0
       ∧ (autoWaitAndRetry 125 initJobState).2.2 = true) :=
  ⟨by decide, autoWait_countdown_restart 125 initJobState Choice.yes rfl⟩

/-- Claim C5: for every `n ≥ 0`, the total-count announcement with `n` written
in decimal yields `total_notes = n` exactly — in the main file for
`"<n> notes to download"` and in the 2.0 variant for its
`"<n> note(s) to download"` wording. -/
theorem totalCount_extract (n : Nat) (st st2 : JobState) :
    (processSyncLineMain st (decRepr n ++ chars " notes to download")).totalNotes = n
    ∧ (processSyncLine20 st2 (decRepr n ++ chars " note(s) to download")).totalNotes = n := by
  constructor
  · apply processSyncLineMain_total
    · exact containsStr_append_right _ _ _ (by decide)
    · have h := searchNumLit_leading (chars " notes to download") (decRepr n)
        (chars " notes to download") (decRepr_ne_nil n) (decRepr_digits n)
        (by decide) (by decide)
      simpa [searchNotesMain, decRepr_val] using h
  · apply processSyncLine20_total
    · exact marker_false_numline20 n
    · exact containsStr_append_right _ _ _ (by decide)
    · have h := searchNotes20_leading (decRepr n) (decRepr_ne_nil n) (decRepr_digits n)
      simpa [decRepr_val] using h

/-- A GUI state with a backup already in progress (`is_working = True`). -/
def busyGuiState : GuiState :=
  { totalNotes := 5, currentNote := 2, phaseLabel := Phase.syncing, isWorking := true }

/-- Claim C9: while `is_working` is true, `start_backup` (both variants)
rejects the request immediately: no worker thread is started and the GUI/job
state is left unchanged, whatever the other inputs are. -/
theorem singleJob_reject (he li cf mk : Bool) (st : GuiState)
    (h : st.isWorking = true) :
    startBackupMain he li cf mk st = (st, false)
    ∧ startBackup20 li cf mk st = (st, false) := by
  cases he <;> cases li <;> cases cf <;> cases mk <;>
    simp [startBackupMain, startBackup20, h]

/-- Witness for C9 on a concrete in-progress state. -/
theorem singleJob_reject_witness :
    startBackupMain true true true true busyGuiState = (busyGuiState, false)
    ∧ startBackup20 true true true busyGuiState = (busyGuiState, false) :=
  singleJob_reject true true true true busyGuiState rfl

/-- Claim C10: a parsed wait duration of zero seconds (`0:00`) is falsy in
`if wait_seconds:`, so `_handle_rate_limit` behaves exactly as with no parsed
duration: no three-way choice, no countdown, just report-and-stop. -/
theorem zeroWait_reportStop (c : Choice) :
    handleRateLimit (some 0) c = RLOutcome.reportStop
    ∧ handleRateLimit none c = RLOutcome.reportStop
    ∧ handleRateLimit (some 0) c = handleRateLimit none c :=
  ⟨rfl, rfl, rfl⟩

/-- Counterexample to claim C3 as stated: in `backup_task`
(src/evernote_backup_gui.py) a sync phase that exits with code 1 and no
rate-limit line does NOT move the job to a failed state — the sync exit code
is never inspected, the export command is invoked anyway, and (the export
succeeding) the whole job even ends successfully. -/
theorem syncFail_cex :
    (backupTaskMain [] 1 [] 0).exportInvoked = true
    ∧ (backupTaskMain [] 1 [] 0).outcome = Outcome.succeeded := by
  decide

/-- Claim C3 (amended): in the 2.0 variant `_backup_task`, a sync stream that
ends with a non-zero exit code and contained no rate-limit line moves the job
to the failed terminal outcome, publishes the error-severity status
`("백업 실패", error)`, and never invokes the export command; `backup_task` in
the main file does not inspect the sync exit code at all and always proceeds
to export (see the counterexample). -/
theorem syncFail_failed20 (syncLines : List (List Char)) (syncExit : Int)
    (choice : Choice) (exportLines : List (List Char)) (exportExit : Int)
    (hnr : ∀ l ∈ syncLines, containsStr (chars "Rate limit reached") l = false)
    (hx : syncExit ≠ 0) :
    (backupTask20 syncLines syncExit choice exportLines exportExit).outcome
      = Outcome.failed (chars "동기화에 실패했습니다")
    ∧ (backupTask20 syncLines syncExit choice exportLines exportExit).exportInvoked = false
    ∧ (chars "백업 실패", Level.error)
        ∈ (backupTask20 syncLines syncExit choice exportLines exportExit).statuses := by
  have hrate := foldSync20_no_rate syncLines initJobState hnr rfl
  simp only [backupTask20]
  rw [if_neg (by simp [hrate]), if_pos hx]
  exact ⟨rfl, rfl, by simp⟩

/-- Witness for the amended C3: empty sync output, exit code 1. -/
theorem syncFail_failed20_witness :
    (backupTask20 [] 1 Choice.yes [] 0).outcome
      = Outcome.failed (chars "동기화에 실패했습니다")
    ∧ (backupTask20 [] 1 Choice.yes [] 0).exportInvoked = false
    ∧ (chars "백업 실패", Level.error) ∈ (backupTask20 [] 1 Choice.yes [] 0).statuses :=
  syncFail_failed20 [] 1 Choice.yes [] 0 (by simp) (by decide)

/-- A sync-output sequence for `_backup_task` in which a later, smaller total
announcement arrives after five notes have already been counted. -/
def resetTotalLines : List (List Char) :=
  [chars "10 note(s) to download",
   chars "note a", chars "note b", chars "note c", chars "note d", chars "note e",
   chars "3 note(s) to download"]

/-- Counterexample to claim C4 as stated: after `resetTotalLines` the 2.0 sync
loop is left with `total_notes = 3 > 0` but `current_note = 5 > 3` — a second,
smaller total announcement is applied without re-clamping the counter, so
`processedNotes ≤ totalNotes` does not hold for every sequence of classified
lines. -/
theorem progressClamp_cex :
    (resetTotalLines.foldl processSyncLine20 initJobState).totalNotes = 3
    ∧ (resetTotalLines.foldl processSyncLine20 initJobState).currentNote = 5
    ∧ ¬((resetTotalLines.foldl processSyncLine20 initJobState).currentNote
        ≤ (resetTotalLines.foldl processSyncLine20 initJobState).totalNotes) := by
  decide

/-- Claim C4 (amended): as long as `total_notes` is not re-announced — in
particular throughout the export phase, whose loop is the code cited for the
claim — the counter invariant holds: starting from `current_note ≤
total_notes`, every export progress line keeps `current_note ≤ total_notes`
(each increment is clamped by `min`), `total_notes` itself never changes, and
at the bound a further progress line leaves the state exactly unchanged
(idempotent clamping). -/
theorem exportClamp_invariant (lines : List (List Char)) (st : JobState)
    (h : st.currentNote ≤ st.totalNotes) :
    (lines.foldl processExportLine st).currentNote
      ≤ (lines.foldl processExportLine st).totalNotes
    ∧ (lines.foldl processExportLine st).totalNotes = st.totalNotes
    ∧ (∀ st2 l, st2.currentNote = st2.totalNotes → processExportLine st2 l = st2) :=
  ⟨foldExport_le lines st h, foldExport_total lines st,
   fun st2 l h2 => processExportLine_at_bound st2 l h2⟩

/-- Witness for the amended C4: two export lines against a total of 1. -/
theorem exportClamp_invariant_witness :
    (([chars "export file 1", chars "export file 2"].foldl processExportLine
        { initJobState with totalNotes := 1 }).currentNote
      ≤ ([chars "export file 1", chars "export file 2"].foldl processExportLine
        { initJobState with totalNotes := 1 }).totalNotes)
    ∧ ([chars "export file 1", chars "export file 2"].foldl processExportLine
        { initJobState with totalNotes := 1 }).totalNotes
        = ({ initJobState with totalNotes := 1 } : JobState).totalNotes
    ∧ (∀ st2 l, st2.currentNote = st2.totalNotes → processExportLine st2 l = st2) :=
  exportClamp_invariant [chars "export file 1", chars "export file 2"]
    { initJobState with totalNotes := 1 } (by decide)

/-- Counterexample to claim C6 as stated: the line
`"Downloading notes: PERMISSION_DENIED"` matches the ignorable pattern table
of `is_ignorable_error`, yet `backup_task` classifies it through the earlier
`"Downloading" and "notes"` progress branch, so nothing is appended to the
skip list. -/
theorem ignorable_cex :
    isIgnorableMain (chars "Downloading notes: PERMISSION_DENIED") = true
    ∧ (processSyncLineMain initJobState
        (chars "Downloading notes: PERMISSION_DENIED")).failedNotes = [] := by
  decide

/-- Claim C6 (amended): for every line matching the fixed ignorable-error
pattern table (case-insensitive substring match) that is not captured by the
earlier progress branch (i.e. does not contain both `"Downloading"` and
`"notes"`), `backup_task` appends exactly one entry — the line itself — to the
skip list and leaves `current_note` and the phase label unchanged. -/
theorem ignorable_append (line : List Char) (st : JobState)
    (hi : isIgnorableMain line = true)
    (hd : (containsStr (chars "Downloading") line
           && containsStr (chars "notes") line) = false) :
    (processSyncLineMain st line).failedNotes = st.failedNotes ++ [line]
    ∧ (processSyncLineMain st line).currentNote = st.currentNote
    ∧ (processSyncLineMain st line).syncPhase = st.syncPhase :=
  processSyncLineMain_ignorable st line hi hd

/-- Witness for the amended C6 on a concrete ignorable line. -/
theorem ignorable_append_witness :
    (processSyncLineMain initJobState (chars "PERMISSION_DENIED: note xyz")).failedNotes
      = initJobState.failedNotes ++ [chars "PERMISSION_DENIED: note xyz"]
    ∧ (processSyncLineMain initJobState (chars "PERMISSION_DENIED: note xyz")).currentNote
        = initJobState.currentNote
    ∧ (processSyncLineMain initJobState (chars "PERMISSION_DENIED: note xyz")).syncPhase
        = initJobState.syncPhase :=
  ignorable_append (chars "PERMISSION_DENIED: note xyz") initJobState
    (by decide) (by decide)

/-- Counterexample to claim C7 as stated: in `backup_task`
(src/evernote_backup_gui.py) the rate-limit check and the total-count check
are independent `if` statements, so the single line
`"rate limit: 120 notes to download"` is simultaneously classified as a
rate-limit signal and as a total-count signal (`total_notes` becomes 120). -/
theorem ratePriority_cex :
    (processSyncLineMain initJobState
      (chars "rate limit: 120 notes to download")).rateLimitDetected = true
    ∧ (processSyncLineMain initJobState
        (chars "rate limit: 120 notes to download")).totalNotes = 120 := by
  decide

/-- Claim C7 (amended): in the 2.0 variant `_backup_task` the classifier is a
single first-match-wins `elif` chain with the rate-limit check first, so every
line containing the rate-limit marker only sets the rate-limit fields:
`total_notes`, `current_note` and the skip list are untouched.  In the main
file the rate-limit and total-count checks are independent, so one line can
fall into both categories (see the counterexample). -/
theorem ratePriority20 (line : List Char) (st : JobState)
    (hm : containsStr (chars "Rate limit reached") line = true) :
    (processSyncLine20 st line).rateLimitDetected = true
    ∧ (processSyncLine20 st line).totalNotes = st.totalNotes
    ∧ (processSyncLine20 st line).currentNote = st.currentNote
    ∧ (processSyncLine20 st line).failedNotes = st.failedNotes := by
  rw [processSyncLine20_marker st line hm]
  exact ⟨rfl, rfl, rfl, rfl⟩

/-- Witness for the amended C7 on a concrete marker line. -/
theorem ratePriority20_witness :
    (processSyncLine20 initJobState
      (chars "Rate limit reached. Restart program in 1:00")).rateLimitDetected = true
    ∧ (processSyncLine20 initJobState
        (chars "Rate limit reached. Restart program in 1:00")).totalNotes
        = initJobState.totalNotes
    ∧ (processSyncLine20 initJobState
        (chars "Rate limit reached. Restart program in 1:00")).currentNote
        = initJobState.currentNote
    ∧ (processSyncLine20 initJobState
        (chars "Rate limit reached. Restart program in 1:00")).failedNotes
        = initJobState.failedNotes :=
  ratePriority20 (chars "Rate limit reached. Restart program in 1:00") initJobState
    (by decide)

/-- Counterexample to claim C8 as stated: in the 2.0 variant `_backup_task` an
export phase exiting with code 1 (and no output) fails the job with the fixed
message `"내보내기에 실패했습니다"`, which does not contain the exit code. -/
theorem exportFail_cex :
    (backupTask20 [] 0 Choice.yes [] 1).outcome
      = Outcome.failed (chars "내보내기에 실패했습니다")
    ∧ containsStr (intRepr 1) (chars "내보내기에 실패했습니다") = false := by
  decide

/-- Claim C8 (amended): for every non-zero export exit code — even with no
export output lines — both variants end the job in the failed terminal
outcome with the failure detail surfaced; in the main file that detail
includes the exit code (`"내보내기 실패 (종료 코드: <rc>)"`), while the 2.0
variant surfaces a fixed message without it (see the counterexample). -/
theorem exportFail_spec (rc : Int) (syncLines exportLines : List (List Char))
    (choice : Choice) (hrc : rc ≠ 0)
    (hnr : ∀ l ∈ syncLines, containsStr (chars "Rate limit reached") l = false) :
    ((backupTaskMain syncLines 0 exportLines rc).outcome
        = Outcome.failed (mainExportFailMsg rc)
      ∧ (∃ a b, mainExportFailMsg rc = a ++ (intRepr rc ++ b)))
    ∧ (backupTask20 syncLines 0 choice exportLines rc).outcome
        = Outcome.failed (chars "내보내기에 실패했습니다") := by
  refine ⟨⟨?_, ⟨chars "내보내기 실패 (종료 코드: ", chars ")", ?_⟩⟩, ?_⟩
  · simp only [backupTaskMain]
    rw [if_pos hrc]
  · rw [mainExportFailMsg, List.append_assoc]
  · have hrate := foldSync20_no_rate syncLines initJobState hnr rfl
    simp only [backupTask20]
    rw [if_neg (by simp [hrate])]
    rw [if_neg (by omega : ¬((0 : Int) ≠ 0))]
    rw [if_pos hrc]

/-- Witness for the amended C8: exit code 1, no output in either phase. -/
theorem exportFail_spec_witness :
    ((backupTaskMain [] 0 [] 1).outcome = Outcome.failed (mainExportFailMsg 1)
      ∧ (∃ a b, mainExportFailMsg 1 = a ++ (intRepr 1 ++ b)))
    ∧ (backupTask20 [] 0 Choice.no [] 1).outcome
        = Outcome.failed (chars "내보내기에 실패했습니다") :=
  exportFail_spec 1 [] [] Choice.no (by decide) (by simp)
